import Mathlib

/- A shallow embedding of the Certivo human-verification service.
   Two variants live in the repository and are both embedded here:
   the legacy service (src/main.py together with src/challenge_engine.py)
   and the backend authority (src/backend/main.py).
   Python floats are modelled as exact rationals; Python dict stores are
   modelled as association lists; the Signal Analyzer
   (run_human_verification) is passed in as an oracle function. -/

/-- Clamp a rational into the unit interval: Python max(0, min(1, x)),
as applied to each signal in finalize_session (src/main.py lines 165-168). -/
def clamp01 (x : ℚ) : ℚ := max 0 (min 1 x)

/-- Round a rational to the nearest integer with ties to even, the rounding
mode of Python round. -/
def roundHalfEven (q : ℚ) : ℤ :=
  if q - (⌊q⌋ : ℚ) < 1 / 2 then ⌊q⌋
  else if 1 / 2 < q - (⌊q⌋ : ℚ) then ⌊q⌋ + 1
  else if ⌊q⌋ % 2 = 0 then ⌊q⌋ else ⌊q⌋ + 1

/-- Python round(x, 2) over exact rationals (binary floating-point
representation error is idealised away). -/
def pyRound2 (q : ℚ) : ℚ := (roundHalfEven (q * 100) : ℚ) / 100

/-- One element of the results list a client posts to /v1/finalize
(src/main.py finalize_session). Fields hold the values after the dict
.get defaults of lines 165-169 are applied. -/
structure LegacyResult where
  liveness_score : ℚ
  lip_sync_score : ℚ
  reaction_time : ℚ
  facial_stability : ℚ
  blink_count : ℚ
  challenge_passed : Bool
deriving DecidableEq

/-- Blink penalty of finalize_session (src/main.py lines 171-173): zero
unless blink_count exceeds 5, otherwise 0.02 per excess blink capped at 0.2. -/
def blinkPenalty (blink_count : ℚ) : ℚ :=
  if blink_count > 5 then min ((blink_count - 5) * 0.02) 0.2 else 0

/-- Per-challenge trust value finalize_session computes for one result
(src/main.py lines 164-182): each signal clamped into the unit interval,
weighted 0.35 / 0.25 / 0.15 / 0.15, minus the blink penalty. -/
def challengeTrust (r : LegacyResult) : ℚ :=
  clamp01 r.liveness_score * 0.35 + clamp01 r.lip_sync_score * 0.25 +
    clamp01 r.reaction_time * 0.15 + clamp01 r.facial_stability * 0.15 -
    blinkPenalty r.blink_count

/-- The spec wording of the same per-challenge value, for refinement
comparison: blink_penalty written min(max(blink_count - 5, 0) * 0.02, 0.2). -/
def specChallengeTrust (r : LegacyResult) : ℚ :=
  clamp01 r.liveness_score * 0.35 + clamp01 r.lip_sync_score * 0.25 +
    clamp01 r.reaction_time * 0.15 + clamp01 r.facial_stability * 0.15 -
    min (max (r.blink_count - 5) 0 * 0.02) 0.2

/-- Number of results whose challenge_passed flag is false
(src/main.py lines 184-185). -/
def failedChallenges (results : List LegacyResult) : ℕ :=
  results.countP (fun r => !r.challenge_passed)

/-- Failed-slot penalty (src/main.py lines 190-196). -/
def failPenalty (failed : ℕ) : ℚ :=
  if failed = 1 then 10 else if failed = 2 then 25 else if 3 ≤ failed then 40 else 0

/-- Trust-level thresholds (src/main.py lines 199-205 and
src/backend/main.py line 163, over the respective score types). -/
def trustLevel (trust_score : ℚ) : String :=
  if 85 ≤ trust_score then "high" else if 60 ≤ trust_score then "medium" else "low"

/-- Session trust score for a nonempty results list (src/main.py
lines 187-197): mean of challengeTrust over the results, scaled by 100,
clamped between 30 and 100, rounded to two decimals by Python round(x, 2),
minus the failed-slot penalty, re-clamped to the floor of 30. -/
def sessionScore (results : List LegacyResult) : ℚ :=
  let base_trust := (results.map challengeTrust).sum / (results.length : ℚ)
  let trust_score := pyRound2 (max 30 (min 100 (base_trust * 100)))
  max 30 (trust_score - failPenalty (failedChallenges results))

/-- The spec wording of the session score, for refinement comparison:
mean scaled by 100, clamped to 30..100, penalty subtracted, re-clamped;
no rounding step. -/
def specSessionScore (results : List LegacyResult) : ℚ :=
  let base_trust := (results.map challengeTrust).sum / (results.length : ℚ)
  max 30 (max 30 (min 100 (base_trust * 100)) - failPenalty (failedChallenges results))

/-- The session record returned by /v1/finalize (src/main.py lines 209-217);
session_id, timestamps and the device token are elided. -/
structure SessionRecord where
  trust_score : ℚ
  trust_level : String
  failed_challenges : ℕ
  total_challenges : ℕ
deriving DecidableEq

/-- POST /v1/finalize of the legacy service (src/main.py finalize_session).
TRUSTED_DEVICES is modelled as the list of device ids currently holding a
trust record (the stored token / user-agent / expiry payload is elided).
Empty results short-circuit to score 0 and level low (lines 156-159);
the TRUSTED_DEVICES write at lines 219-232 is unconditional.
Returns the session record and the updated device-trust store. -/
def finalize_session (trusted : List String) (device_id : String)
    (results : List LegacyResult) : SessionRecord × List String :=
  if results = [] then
    (⟨0, "low", 0, results.length⟩, device_id :: trusted)
  else
    (⟨sessionScore results, trustLevel (sessionScore results),
      failedChallenges results, results.length⟩, device_id :: trusted)

/-- Per-device challenge bookkeeping of src/challenge_engine.py
(the active_challenges store): current index, ordered token list, expiry. -/
structure TokenSession where
  index : ℕ
  tokens : List String
  expiry : ℚ
deriving DecidableEq

/-- Lookup in an association list keyed by device id (Python dict .get). -/
def alistGet (store : List (String × TokenSession)) (k : String) : Option TokenSession :=
  match store with
  | [] => none
  | (k', v) :: rest => if k' = k then some v else alistGet rest k

/-- Deletion from the association list (Python del store[k]). -/
def alistErase (store : List (String × TokenSession)) (k : String) :
    List (String × TokenSession) :=
  match store with
  | [] => []
  | (k', v) :: rest => if k' = k then alistErase rest k else (k', v) :: alistErase rest k

/-- In-place update of the association list (Python store[k] mutation). -/
def alistSet (store : List (String × TokenSession)) (k : String) (v : TokenSession) :
    List (String × TokenSession) :=
  match store with
  | [] => []
  | (k', v') :: rest =>
    if k' = k then (k', v) :: alistSet rest k v else (k', v') :: alistSet rest k v

/-- verify_challenge_token (src/challenge_engine.py lines 51-71): check a
token is the one at the session index; on expiry the entry is deleted; on
success the index advances; any failure leaves the store as it was, except
expiry which deletes the entry. The source writes the bounds check as
index >= len(tokens); here the same test appears as the negated guard of
the dependent if. -/
def verify_challenge_token (store : List (String × TokenSession))
    (device_id token : String) (now : ℚ) :
    (Bool × String) × List (String × TokenSession) :=
  match alistGet store device_id with
  | none => ((false, "No active session"), store)
  | some session =>
    if session.expiry < now then
      ((false, "Session expired"), alistErase store device_id)
    else if h : session.index < session.tokens.length then
      if token ≠ session.tokens.get ⟨session.index, h⟩ then
        ((false, "Invalid token or out of order"), store)
      else
        ((true, "Valid"), alistSet store device_id { session with index := session.index + 1 })
    else ((false, "All challenges completed"), store)

/-- Output of run_human_verification (src/backend/human_verification.py
_pass and _fail): normalized scores, pass flag, replay flag, reason. -/
structure HVResult where
  liveness_score : ℚ
  lip_sync_score : ℚ
  challenge_passed : Bool
  replay_flag : Bool
  reason : String
deriving DecidableEq

/-- One authoritative challenge slot of a backend session
(src/backend/main.py lines 50-61). -/
structure BSlot where
  challenge_id : String
  type : String
  instruction : String
  difficulty : String
  order : ℕ
  attempts : ℕ
  max_attempts : ℕ
  passed : Bool
  used : Bool
deriving DecidableEq

/-- A backend verification session (src/backend/main.py lines 27-34 and
63-70); created_at is elided, expires_at is a rational timestamp. -/
structure BSession where
  device_id : String
  status : String
  expires_at : ℚ
  challenges : List BSlot
  current_index : ℕ
deriving DecidableEq

/-- Rejection outcomes of the backend endpoints. The first six model the
HTTPException reason codes raised in src/backend/main.py; indexError models
the uncaught Python IndexError from challenges[current_index] when
current_index is out of range (an unhandled 500, not a reason-coded
rejection). -/
inductive BError where
  | invalidSession
  | sessionExpired
  | noRemaining
  | orderViolation
  | alreadyUsed
  | retryLimit
  | indexError
deriving DecidableEq

/-- The reply of POST /v1/verify (src/backend/main.py lines 141-145). -/
structure BReply where
  challenge_passed : Bool
  attempts : ℕ
  next_available : Bool
deriving DecidableEq

/-- POST /v1/verify of the backend authority (src/backend/main.py
verify_challenge, lines 101-145). The session is taken by value (the dict
lookup and the not-found branch of the invalid-session check are elided: a
missing session raises the same invalidSession rejection). The media upload
is the submitted bytes; analyze is the run_human_verification oracle, which
the code calls on the media and the slot type. The source mutates
challenge["attempts"], challenge["used"], challenge["passed"] and
session["current_index"] in place; the net effect of lines 130-139 is
reproduced on a copy. Note there is no expiry test and no binding-token
test and no media-content (replay) test in this endpoint. -/
def verify_challenge (s : BSession) (challenge_id : String) (media : List ℕ)
    (analyze : List ℕ → String → HVResult) : Except BError (BReply × BSession) :=
  if s.status ≠ "active" then .error .invalidSession
  else if h : s.current_index < s.challenges.length then
    if (s.challenges.get ⟨s.current_index, h⟩).challenge_id ≠ challenge_id then
      .error .orderViolation
    else if (s.challenges.get ⟨s.current_index, h⟩).used then .error .alreadyUsed
    else if (s.challenges.get ⟨s.current_index, h⟩).max_attempts ≤
        (s.challenges.get ⟨s.current_index, h⟩).attempts then .error .retryLimit
    else if (analyze media (s.challenges.get ⟨s.current_index, h⟩).type).challenge_passed then
      let challenge' := { s.challenges.get ⟨s.current_index, h⟩ with
        attempts := (s.challenges.get ⟨s.current_index, h⟩).attempts + 1
        used := true
        passed := true }
      let s' := { s with
        challenges := s.challenges.set s.current_index challenge'
        current_index := s.current_index + 1 }
      .ok (⟨challenge'.passed, challenge'.attempts,
            decide (s'.current_index < s'.challenges.length)⟩, s')
    else
      let challenge' := { s.challenges.get ⟨s.current_index, h⟩ with
        attempts := (s.challenges.get ⟨s.current_index, h⟩).attempts + 1
        used := false }
      let newIndex := if (s.challenges.get ⟨s.current_index, h⟩).max_attempts ≤
          (s.challenges.get ⟨s.current_index, h⟩).attempts + 1
        then s.current_index + 1 else s.current_index
      let s' := { s with
        challenges := s.challenges.set s.current_index challenge'
        current_index := newIndex }
      .ok (⟨challenge'.passed, challenge'.attempts,
            decide (s'.current_index < s'.challenges.length)⟩, s')
  else .error .indexError

/-- GET /v1/challenge of the backend authority (src/backend/main.py
get_current_challenge, lines 79-97): status gate, then the lazy expiry
check now > expires_at which flips an active session to expired, then the
bounds check. Returns the outcome together with the possibly updated
session. -/
def get_current_challenge (s : BSession) (now : ℚ) : Except BError BSlot × BSession :=
  if s.status ≠ "active" then (.error .invalidSession, s)
  else if s.expires_at < now then
    (.error .sessionExpired, { s with status := "expired" })
  else if h : s.current_index < s.challenges.length then
    (.ok (s.challenges.get ⟨s.current_index, h⟩), s)
  else (.error .noRemaining, s)

/-- The body of POST /v1/finalize of the backend authority
(src/backend/main.py lines 156-178). -/
structure BFinal where
  trust_score : ℤ
  trust_level : String
  passed : ℕ
  failed : ℕ
deriving DecidableEq

/-- POST /v1/finalize of the backend authority (src/backend/main.py
finalize, lines 149-178). Python int() truncates; the argument is
nonnegative so it is the floor. trusted_devices is modelled as the list of
device ids holding a grant (the stored token is elided); the write at
lines 165-169 happens only when trust_score >= 85. The session status
becomes completed. Sessions are always created with three slots, so the
division is never by zero. -/
def finalize (trusted : List String) (s : BSession) :
    BFinal × BSession × List String :=
  let passed := s.challenges.countP (fun c => c.passed)
  let failed := s.challenges.length - passed
  let trust_score : ℤ :=
    max 30 (min 100 ⌊((passed : ℚ) / (s.challenges.length : ℚ)) * 100⌋)
  let trust_level := if 85 ≤ trust_score then "high"
                     else if 60 ≤ trust_score then "medium" else "low"
  let trusted' := if 85 ≤ trust_score then s.device_id :: trusted else trusted
  (⟨trust_score, trust_level, passed, failed⟩, { s with status := "completed" }, trusted')

/-- One observable state transition of the backend authority store: a
successful verify, any challenge fetch, or a finalize. Rejected verify
calls raise before mutating and so change nothing. -/
inductive BStep : BSession → BSession → Prop where
  | verifyStep {s s' : BSession} (challenge_id : String) (media : List ℕ)
      (analyze : List ℕ → String → HVResult) (r : BReply)
      (h : verify_challenge s challenge_id media analyze = .ok (r, s')) : BStep s s'
  | challengeStep {s : BSession} (now : ℚ) : BStep s (get_current_challenge s now).2
  | finalizeStep {s : BSession} (trusted : List String) :
      BStep s (finalize trusted s).2.1

/-- Reflexive-transitive reachability through backend transitions. -/
inductive ReachableB (s0 : BSession) : BSession → Prop where
  | refl : ReachableB s0 s0
  | step {s s' : BSession} (hr : ReachableB s0 s) (hs : BStep s s') : ReachableB s0 s'

/-- The slots a backend session still points at (at or after current_index)
have attempts remaining and are unused: true of a fresh session and
preserved by every transition, since exhausting or passing a slot advances
the index past it. -/
def SlotInv (s : BSession) : Prop :=
  ∀ j : Fin s.challenges.length, s.current_index ≤ (j : ℕ) →
    (s.challenges.get j).attempts < (s.challenges.get j).max_attempts ∧
    (s.challenges.get j).used = false

/-- The challenge ids of a backend session, in slot order. -/
def slotIds (s : BSession) : List String := s.challenges.map fun c => c.challenge_id

/-- Analyzer outcome used in concrete runs: a passing evaluation
(src/backend/human_verification.py _pass). -/
def hvPass : HVResult := ⟨0.95, 0.92, true, false, "passed"⟩

/-- Analyzer outcome used in concrete runs: a failing evaluation
(src/backend/human_verification.py _fail). -/
def hvFail : HVResult := ⟨0, 0, false, false, "challenge_failed"⟩

/-- A Signal Analyzer oracle that passes every submission. -/
def evalPass : List ℕ → String → HVResult := fun _ _ => hvPass

/-- A Signal Analyzer oracle that fails every submission. -/
def evalFail : List ℕ → String → HVResult := fun _ _ => hvFail

/-- Device id literal used by concrete legacy finalize calls. -/
def webDevice : String := "web"

/-- Device id literal used by the failing trust-grant input. -/
def deviceA : String := "deviceA"

/-- Challenge id literals used in concrete backend runs. -/
def cidA : String := "a"

def cidB : String := "b"

/-- A result as the legacy frontend reports a passed challenge with a very
precise liveness value, exposing the rounding step of finalize_session. -/
def resultA : LegacyResult := ⟨0.9991, 0.9, 1, 1, 0, true⟩

/-- A result as the legacy frontend reports a failed challenge: zero scores,
default reaction and stability, not passed. -/
def failedResult : LegacyResult := ⟨0, 0, 1, 1, 0, false⟩

/-- Fresh backend slots as start_verification issues them
(src/backend/main.py lines 50-61): zero attempts, two max, unused. -/
def slotA0 : BSlot := ⟨"a", "smile", "Smile once", "medium", 0, 0, 2, false, false⟩

def slotB0 : BSlot := ⟨"b", "blink", "Blink twice", "medium", 1, 0, 2, false, false⟩

def slotC0 : BSlot := ⟨"c", "head_turn", "Turn head both sides", "medium", 2, 0, 2, false, false⟩

/-- slotA0 after one passing submission. -/
def slotA0p : BSlot := ⟨"a", "smile", "Smile once", "medium", 0, 1, 2, true, true⟩

/-- slotB0 after one passing submission. -/
def slotB0p : BSlot := ⟨"b", "blink", "Blink twice", "medium", 1, 1, 2, true, true⟩

/-- slotA0 after one failing submission (attempts 1, still open). -/
def slotA1 : BSlot := ⟨"a", "smile", "Smile once", "medium", 0, 1, 2, false, false⟩

/-- slotA0 after two failing submissions (attempts exhausted, not passed,
not used). -/
def slotA2 : BSlot := ⟨"a", "smile", "Smile once", "medium", 0, 2, 2, false, false⟩

/-- A fresh three-slot backend session. -/
def sFresh : BSession := ⟨"dev4", "active", 300, [slotA0, slotB0, slotC0], 0⟩

/-- sFresh after a passing submission on slot a. -/
def sFreshA : BSession := ⟨"dev4", "active", 300, [slotA0p, slotB0, slotC0], 1⟩

/-- sFreshA after a passing submission on slot b. -/
def sFreshAB : BSession := ⟨"dev4", "active", 300, [slotA0p, slotB0p, slotC0], 2⟩

/-- An active two-slot session whose expiry time (10) has already passed. -/
def sStale : BSession := ⟨"dev2", "active", 10, [slotB0, slotC0], 0⟩

/-- sStale after the passing submission that the expiry should have
prevented. -/
def sStaleAfter : BSession := ⟨"dev2", "active", 10, [slotB0p, slotC0], 1⟩

/-- A session whose status is already expired. -/
def sInactive : BSession := ⟨"dev2", "expired", 10, [slotB0, slotC0], 0⟩

/-- A session whose first slot has one failed attempt left to spend. -/
def sRetry : BSession := ⟨"dev3", "active", 300, [slotA1, slotB0], 0⟩

/-- sRetry after the second failing submission: slot a exhausted but not
used, index advanced. -/
def sRetryAfter : BSession := ⟨"dev3", "active", 300, [slotA2, slotB0], 1⟩

/-- A session in which slot a has exhausted its attempts and the index has
moved on to slot b. -/
def sExhausted : BSession := ⟨"dev1", "active", 300, [slotA2, slotB0, slotC0], 1⟩

/-- An active session all of whose slots are finished: current_index equals
the number of challenges. -/
def sDone : BSession := ⟨"dev5", "active", 300, [slotA0p, slotB0p, slotC0], 3⟩

/-- A concrete challenge-engine token store with one device session. -/
def tokStore : List (String × TokenSession) := [("dev", ⟨0, ["t1", "t2"], 100⟩)]

/-- The token session stored in tokStore. -/
def tokSession : TokenSession := ⟨0, ["t1", "t2"], 100⟩

/-- The device key of tokStore. -/
def devKey : String := "dev"

/-- A token that is not the expected one. -/
def badToken : String := "bad"

deriving instance DecidableEq for Except

/-- Rounding half to even never moves past an integer upper bound. -/
theorem roundHalfEven_le {q : ℚ} {n : ℤ} (h : q ≤ (n : ℚ)) : roundHalfEven q ≤ n := by
  have hfn : ⌊q⌋ ≤ n := by
    have h1 := Int.floor_le_floor h
    simpa using h1
  unfold roundHalfEven
  split_ifs with h1 h2 h3
  · exact hfn
  all_goals
    have hge : 1 / 2 ≤ q - (⌊q⌋ : ℚ) := not_lt.mp h1
  all_goals
    have hlt : ⌊q⌋ < n := by
      rcases lt_or_eq_of_le hfn with hc | hc
      · exact hc
      · exfalso
        have hq : (⌊q⌋ : ℚ) ≤ q := Int.floor_le q
        rw [hc] at hge
        linarith
  all_goals omega

/-- Rounding half to even never moves past an integer lower bound. -/
theorem le_roundHalfEven {q : ℚ} {n : ℤ} (h : (n : ℚ) ≤ q) : n ≤ roundHalfEven q := by
  have hfn : n ≤ ⌊q⌋ := Int.le_floor.mpr h
  unfold roundHalfEven
  split_ifs <;> omega

/-- Two-decimal rounding never moves past an integer upper bound. -/
theorem pyRound2_le {q : ℚ} {n : ℤ} (h : q ≤ (n : ℚ)) : pyRound2 q ≤ (n : ℚ) := by
  have h1 : q * 100 ≤ ((100 * n : ℤ) : ℚ) := by push_cast; linarith
  have h2 : roundHalfEven (q * 100) ≤ 100 * n := roundHalfEven_le h1
  unfold pyRound2
  rw [div_le_iff₀ (by norm_num : (0 : ℚ) < 100)]
  have h3 : ((roundHalfEven (q * 100) : ℤ) : ℚ) ≤ ((100 * n : ℤ) : ℚ) := by exact_mod_cast h2
  push_cast at h3 ⊢
  linarith

/-- Two-decimal rounding never moves past an integer lower bound. -/
theorem le_pyRound2 {q : ℚ} {n : ℤ} (h : (n : ℚ) ≤ q) : (n : ℚ) ≤ pyRound2 q := by
  have h1 : ((100 * n : ℤ) : ℚ) ≤ q * 100 := by push_cast; linarith
  have h2 : 100 * n ≤ roundHalfEven (q * 100) := le_roundHalfEven h1
  unfold pyRound2
  rw [le_div_iff₀ (by norm_num : (0 : ℚ) < 100)]
  have h3 : ((100 * n : ℤ) : ℚ) ≤ ((roundHalfEven (q * 100) : ℤ) : ℚ) := by exact_mod_cast h2
  push_cast at h3 ⊢
  linarith

/-- The failed-slot penalty is never negative. -/
theorem failPenalty_nonneg (n : ℕ) : 0 ≤ failPenalty n := by
  unfold failPenalty
  split_ifs <;> norm_num

/-- The clamp-round-penalize-reclamp pipeline lands between 30 and 100. -/
theorem clampRoundPenalty_bounds (b p : ℚ) (hp : 0 ≤ p) :
    30 ≤ max 30 (pyRound2 (max 30 (min 100 b)) - p) ∧
    max 30 (pyRound2 (max 30 (min 100 b)) - p) ≤ 100 := by
  have hb100 : max 30 (min 100 b) ≤ ((100 : ℤ) : ℚ) := by
    push_cast
    exact max_le (by norm_num) (min_le_left _ _)
  have hr100 := pyRound2_le hb100
  constructor
  · exact le_max_left _ _
  · apply max_le
    · norm_num
    · push_cast at hr100
      linarith

/-- The legacy session score is always between 30 and 100. -/
theorem sessionScore_bounds (results : List LegacyResult) :
    30 ≤ sessionScore results ∧ sessionScore results ≤ 100 := by
  simp only [sessionScore]
  exact clampRoundPenalty_bounds _ _ (failPenalty_nonneg _)

/-- trustLevel is high exactly on scores of at least 85. -/
theorem trustLevel_eq_high_iff (q : ℚ) : trustLevel q = "high" ↔ 85 ≤ q := by
  unfold trustLevel
  split_ifs with h1 h2
  · exact iff_of_true rfl h1
  · exact iff_of_false (by decide) h1
  · exact iff_of_false (by decide) h1

/-- trustLevel is medium exactly on scores in 60 inclusive to 85 exclusive. -/
theorem trustLevel_eq_medium_iff (q : ℚ) :
    trustLevel q = "medium" ↔ 60 ≤ q ∧ q < 85 := by
  unfold trustLevel
  split_ifs with h1 h2
  · exact iff_of_false (by decide) (fun hx => absurd h1 (not_le.mpr hx.2))
  · exact iff_of_true rfl ⟨h2, not_le.mp h1⟩
  · exact iff_of_false (by decide) (fun hx => absurd hx.1 h2)

/-- trustLevel is low exactly on scores below 60. -/
theorem trustLevel_eq_low_iff (q : ℚ) : trustLevel q = "low" ↔ q < 60 := by
  unfold trustLevel
  split_ifs with h1 h2
  · exact iff_of_false (by decide) (not_lt.mpr (by linarith))
  · exact iff_of_false (by decide) (not_lt.mpr h2)
  · exact iff_of_true rfl (not_le.mp h2)

/-- C1: for every result of a finalized session, the per-challenge trust
value of finalize_session equals the spec formula liveness times 0.35 plus
lip_sync times 0.25 plus reaction times 0.15 plus stability times 0.15
minus min(max(blink_count - 5, 0) times 0.02, 0.2), with every signal first
clamped into the unit interval: the conditional blink penalty of the code
coincides with the min-max form of the spec for every blink count. -/
theorem challengeTrust_eq_spec_formula (r : LegacyResult) :
    challengeTrust r = specChallengeTrust r := by
  unfold challengeTrust specChallengeTrust blinkPenalty
  by_cases h : r.blink_count > 5
  · rw [if_pos h, max_eq_left (by linarith : (0 : ℚ) ≤ r.blink_count - 5)]
  · rw [if_neg h]
    have h5 : r.blink_count ≤ 5 := not_lt.mp h
    rw [max_eq_right (by linarith : r.blink_count - 5 ≤ (0 : ℚ)), zero_mul,
      min_eq_left (by norm_num : (0 : ℚ) ≤ 0.2)]

/-- C2 counterexample: the claim fails as stated at two concrete inputs.
A finalize call with an empty result list returns trust score 0, outside
the claimed interval from 30 to 100; and on one passed result with
liveness 0.9991 the returned score is the two-decimal rounding 87.47 of
the claimed clamped-mean value 87.4685, so the returned score is not the
clamped mean minus the penalty. -/
theorem finalize_session_score_deviates :
    (finalize_session [] webDevice []).1.trust_score = 0 ∧
    ¬ (30 ≤ (finalize_session [] webDevice []).1.trust_score) ∧
    (finalize_session [] webDevice [resultA]).1.trust_score = 8747 / 100 ∧
    specSessionScore [resultA] = 174937 / 2000 ∧
    (finalize_session [] webDevice [resultA]).1.trust_score ≠ specSessionScore [resultA] := by
  refine ⟨?_, ?_, ?_, ?_, ?_⟩ <;>
    norm_num [finalize_session, sessionScore, specSessionScore, challengeTrust, clamp01,
      blinkPenalty, failedChallenges, failPenalty, resultA, pyRound2, roundHalfEven]

/-- C2 (amended): for every finalize call with at least one result, the
returned trust score is the mean of the per-challenge trust values scaled
by 100, clamped between 30 and 100, rounded to two decimals by Python
round, reduced by the failed-slot penalty (1 failure 10, 2 failures 25,
3 or more 40) and re-clamped to the floor of 30; it always lies between 30
and 100, and the returned trust level is high iff the final score is at
least 85, medium iff it is at least 60 and below 85, and low otherwise. -/
theorem finalize_session_score_bounds_and_levels (results : List LegacyResult)
    (h : results ≠ []) (trusted : List String) (device_id : String) :
    (finalize_session trusted device_id results).1.trust_score = sessionScore results ∧
    30 ≤ sessionScore results ∧ sessionScore results ≤ 100 ∧
    ((finalize_session trusted device_id results).1.trust_level = "high" ↔
      85 ≤ sessionScore results) ∧
    ((finalize_session trusted device_id results).1.trust_level = "medium" ↔
      60 ≤ sessionScore results ∧ sessionScore results < 85) ∧
    ((finalize_session trusted device_id results).1.trust_level = "low" ↔
      sessionScore results < 60) := by
  have hb := sessionScore_bounds results
  unfold finalize_session
  rw [if_neg h]
  exact ⟨rfl, hb.1, hb.2, trustLevel_eq_high_iff _, trustLevel_eq_medium_iff _,
    trustLevel_eq_low_iff _⟩

/-- Witness for C2 at the concrete one-element result list. -/
theorem finalize_session_score_bounds_and_levels_witness :
    (finalize_session [] webDevice [resultA]).1.trust_score = sessionScore [resultA] ∧
    30 ≤ sessionScore [resultA] ∧ sessionScore [resultA] ≤ 100 ∧
    ((finalize_session [] webDevice [resultA]).1.trust_level = "high" ↔
      85 ≤ sessionScore [resultA]) ∧
    ((finalize_session [] webDevice [resultA]).1.trust_level = "medium" ↔
      60 ≤ sessionScore [resultA] ∧ sessionScore [resultA] < 85) ∧
    ((finalize_session [] webDevice [resultA]).1.trust_level = "low" ↔
      sessionScore [resultA] < 60) :=
  finalize_session_score_bounds_and_levels [resultA] (by decide) [] webDevice

/-- C3 counterexample: finalize on an empty result set does not fail: it
returns a Session Trust Result with score 0 and level low, so no
NoChallenges error is raised. -/
theorem finalize_session_empty_returns_result :
    (finalize_session [] webDevice []).1.trust_level = "low" ∧
    (finalize_session [] webDevice []).1.trust_score = 0 := by
  exact ⟨rfl, rfl⟩

/-- C3 (amended): neither variant has a NoChallenges failure. The legacy
finalize on an empty result set returns the record with score 0, level low
and zero counts; the backend finalize on a session with zero consumed
slots returns score 30 (the floor) and level low. -/
theorem finalize_empty_behavior :
    (finalize_session [] webDevice []).1 = ⟨0, "low", 0, 0⟩ ∧
    (finalize [] sFresh).1 = ⟨30, "low", 0, 3⟩ := by
  constructor
  · rfl
  · norm_num [finalize, sFresh, slotA0, slotB0, slotC0]

/-- C4: evaluation at the failing input. A legacy finalize whose three
results all failed produces trust level low, yet the device still acquires
a Device Trust Cache entry, because the TRUSTED_DEVICES write in
src/main.py is unconditional; the backend variant at the analogous
zero-passed session produces level low and grants nothing, which is the
guarded behavior the claim describes. -/
theorem finalize_low_level_still_grants_trust :
    (finalize_session [] deviceA [failedResult, failedResult, failedResult]).1.trust_level
      = "low" ∧
    (finalize_session [] deviceA [failedResult, failedResult, failedResult]).2
      = [deviceA] ∧
    (finalize [] sFresh).1.trust_level = "low" ∧
    (finalize [] sFresh).2.2 = [] := by
  refine ⟨?_, rfl, ?_, ?_⟩ <;>
    norm_num [finalize_session, finalize, sessionScore, trustLevel, challengeTrust, clamp01,
      blinkPenalty, failedChallenges, failPenalty, failedResult, pyRound2, roundHalfEven,
      sFresh, slotA0, slotB0, slotC0]
  split <;> rfl

/-- A submission against a session that is not active is rejected as an
invalid session before anything else is examined. -/
theorem verify_not_active {s : BSession} {cid : String} {m : List ℕ}
    {ev : List ℕ → String → HVResult} (h : ¬ s.status = "active") :
    verify_challenge s cid m ev = .error .invalidSession := by
  unfold verify_challenge
  rw [if_pos h]

/-- A submission against an active session whose current index is out of
range aborts with the indexing error. -/
theorem verify_oob {s : BSession} {cid : String} {m : List ℕ}
    {ev : List ℕ → String → HVResult} (h1 : s.status = "active")
    (h2 : s.challenges.length ≤ s.current_index) :
    verify_challenge s cid m ev = .error .indexError := by
  unfold verify_challenge
  rw [if_neg (not_not_intro h1), dif_neg (not_lt.mpr h2)]

/-- A submission naming a challenge other than the current slot is rejected
as an order violation. -/
theorem verify_wrong_id {s : BSession} {cid : String} {m : List ℕ}
    {ev : List ℕ → String → HVResult} (h1 : s.status = "active")
    (h2 : s.current_index < s.challenges.length)
    (h3 : ¬ (s.challenges.get ⟨s.current_index, h2⟩).challenge_id = cid) :
    verify_challenge s cid m ev = .error .orderViolation := by
  unfold verify_challenge
  rw [if_neg (not_not_intro h1), dif_pos h2]
  exact if_pos h3

/-- C5 (amended): the lazy expiry check lives only in the challenge fetch:
get_current_challenge on an active session whose expiry time has passed
rejects with the session-expired error and flips the stored status to
expired; verify_challenge gates only on the status field, so once the
status is anything but active no submission succeeds. (The claim that the
submission path itself checks now against expires_at is refuted by the
counterexample.) -/
theorem expiry_flips_fetch_and_status_gates_submission :
    (∀ (s : BSession) (now : ℚ), s.status = "active" → s.expires_at < now →
      (get_current_challenge s now).1 = .error .sessionExpired ∧
      (get_current_challenge s now).2.status = "expired") ∧
    (∀ (s : BSession) (cid : String) (m : List ℕ) (ev : List ℕ → String → HVResult),
      ¬ s.status = "active" → verify_challenge s cid m ev = .error .invalidSession) := by
  constructor
  · intro s now hact hexp
    unfold get_current_challenge
    rw [if_neg (not_not_intro hact), if_pos hexp]
    exact ⟨rfl, rfl⟩
  · intro s cid m ev h
    exact verify_not_active h

/-- Witness for C5: the stale session is flipped to expired by a fetch at
time 20, and a session already marked expired rejects every submission. -/
theorem expiry_flips_fetch_and_status_gates_submission_witness :
    ((get_current_challenge sStale 20).1 = .error .sessionExpired ∧
     (get_current_challenge sStale 20).2.status = "expired") ∧
    verify_challenge sInactive cidB [0] evalPass = .error .invalidSession :=
  ⟨expiry_flips_fetch_and_status_gates_submission.1 sStale 20 rfl (by decide),
   expiry_flips_fetch_and_status_gates_submission.2 sInactive cidB [0] evalPass (by decide)⟩

/-- C5 counterexample: verify_challenge never consults the clock. A
submission to a still-active session whose expiry time 10 is already past
(time 20 in the fetch scenario) succeeds and mutates the slot: the claim
that no SubmitEvaluation call succeeds once the expiry time has passed is
false on the code. -/
theorem submit_succeeds_after_expiry_time :
    sStale.expires_at < 20 ∧
    verify_challenge sStale cidB [5] evalPass = .ok (⟨true, 1, true⟩, sStaleAfter) := by
  exact ⟨by decide, by decide⟩

/-- C6 (amended): a failing submission that exhausts the slot's attempts
leaves the slot with used = false (the code resets the flag it had just
set) and passed unchanged, records the incremented attempt count, and
advances current_index by one, so the session is never blocked on the
exhausted slot. -/
theorem exhausted_slot_forfeits_and_advances (s : BSession) (c : BSlot) (cid : String)
    (m : List ℕ) (ev : List ℕ → String → HVResult)
    (hact : s.status = "active") (hidx : s.current_index < s.challenges.length)
    (hc : s.challenges.get ⟨s.current_index, hidx⟩ = c)
    (hcid : c.challenge_id = cid) (hused : c.used = false)
    (hatt : c.attempts < c.max_attempts)
    (hfail : (ev m c.type).challenge_passed = false)
    (hexh : c.max_attempts ≤ c.attempts + 1) :
    verify_challenge s cid m ev =
      .ok (⟨c.passed, c.attempts + 1, decide (s.current_index + 1 < s.challenges.length)⟩,
        { s with
          challenges := s.challenges.set s.current_index
            { c with attempts := c.attempts + 1, used := false }
          current_index := s.current_index + 1 }) := by
  unfold verify_challenge
  rw [if_neg (not_not_intro hact), dif_pos hidx, hc]
  rw [if_neg (not_not_intro hcid)]
  rw [if_neg (by rw [hused]; exact Bool.false_ne_true)]
  rw [if_neg (not_le.mpr hatt)]
  rw [if_neg (by rw [hfail]; exact Bool.false_ne_true)]
  rw [if_pos hexh]
  simp only [List.length_set]

/-- Witness for C6 at the session whose first slot has one attempt left. -/
theorem exhausted_slot_forfeits_and_advances_witness :
    verify_challenge sRetry cidA [7] evalFail =
      .ok (⟨slotA1.passed, slotA1.attempts + 1,
            decide (sRetry.current_index + 1 < sRetry.challenges.length)⟩,
        { sRetry with
          challenges := sRetry.challenges.set sRetry.current_index
            { slotA1 with attempts := slotA1.attempts + 1, used := false }
          current_index := sRetry.current_index + 1 }) :=
  exhausted_slot_forfeits_and_advances sRetry slotA1 cidA [7] evalFail rfl (by decide)
    (by decide) rfl rfl (by decide) rfl (by decide)

/-- C6 counterexample: after the failing submission that exhausts slot a,
the slot ends with used = false, not used = true as the claim states
(consumed maps to the used flag, which the failure branch resets); passed
stays false and the index does advance. -/
theorem exhausted_slot_not_marked_used :
    verify_challenge sRetry cidA [7] evalFail = .ok (⟨false, 2, true⟩, sRetryAfter) ∧
    slotA2.used = false ∧ slotA2.passed = false ∧ sRetryAfter.current_index = 1 := by
  exact ⟨by decide, rfl, rfl, rfl⟩

/-- C7 (amended): the token check of src/challenge_engine.py rejects a
token different from the one stored at the session index with the message
Invalid token or out of order and leaves the store untouched. -/
theorem token_mismatch_rejected_unchanged (store : List (String × TokenSession))
    (device_id token : String) (now : ℚ) (sess : TokenSession)
    (hget : alistGet store device_id = some sess)
    (hexp : ¬ sess.expiry < now)
    (hidx : sess.index < sess.tokens.length)
    (htok : ¬ token = sess.tokens.get ⟨sess.index, hidx⟩) :
    verify_challenge_token store device_id token now =
      ((false, "Invalid token or out of order"), store) := by
  unfold verify_challenge_token
  rw [hget]
  simp only [if_neg hexp, dif_pos hidx, if_pos htok]

/-- Witness for C7 at the concrete one-entry token store. -/
theorem token_mismatch_rejected_unchanged_witness :
    verify_challenge_token tokStore devKey badToken 50 =
      ((false, "Invalid token or out of order"), tokStore) :=
  token_mismatch_rejected_unchanged tokStore devKey badToken 50 tokSession (by decide)
    (by decide) (by decide) (by decide)

/-- C7 counterexample: the backend submission endpoint takes no binding
token at all (its request is session, challenge id and media), and a
submission carrying none succeeds, so the claim that every submission must
present the slot's binding token and that a mismatch fails with
InvalidToken is false of the gateway. -/
theorem submission_succeeds_without_token :
    verify_challenge sFresh cidA [9] evalPass = .ok (⟨true, 1, true⟩, sFreshA) := by
  decide

/-- C8 (amended): the gateway consults no replay store: the outcome of a
submission depends on the media bytes only through the Signal Analyzer, so
a repeated media sample is processed exactly like a fresh one. -/
theorem verify_depends_on_media_only_via_analyzer (s : BSession) (cid : String)
    (m₁ m₂ : List ℕ) (ev : List ℕ → String → HVResult)
    (h : ∀ t, ev m₁ t = ev m₂ t) :
    verify_challenge s cid m₁ ev = verify_challenge s cid m₂ ev := by
  unfold verify_challenge
  simp only [h]

/-- Witness for C8: two different media values with equal analyzer verdicts
produce identical outcomes. -/
theorem verify_depends_on_media_only_via_analyzer_witness :
    verify_challenge sFresh cidA [9] evalPass = verify_challenge sFresh cidA [10] evalPass :=
  verify_depends_on_media_only_via_analyzer sFresh cidA [9] [10] evalPass (fun _ => rfl)

/-- C8 counterexample: the identical media sample [9] is submitted for slot
a and then again for the different slot b of the same session; the second
submission is accepted and evaluated (no ReplayDetected) and consumes an
attempt on slot b. -/
theorem repeated_media_accepted_for_other_challenge :
    verify_challenge sFresh cidA [9] evalPass = .ok (⟨true, 1, true⟩, sFreshA) ∧
    verify_challenge sFreshA cidB [9] evalPass = .ok (⟨true, 1, true⟩, sFreshAB) ∧
    sFreshAB.challenges.countP (fun c => c.used) = 2 := by
  exact ⟨by decide, by decide, rfl⟩

/-- C10: a submission to a session that is still active but whose
current_index equals the number of challenges does not receive a
reason-coded rejection: the slot lookup is out of bounds and the call
aborts with the unhandled indexing error. -/
theorem submit_at_end_index_error (s : BSession) (cid : String) (m : List ℕ)
    (ev : List ℕ → String → HVResult) (h1 : s.status = "active")
    (h2 : s.current_index = s.challenges.length) :
    verify_challenge s cid m ev = .error .indexError :=
  verify_oob h1 (le_of_eq h2.symm)

/-- Witness for C10 at a finished-but-unfinalized session. -/
theorem submit_at_end_index_error_witness :
    verify_challenge sDone cidA [1] evalPass = .error .indexError :=
  submit_at_end_index_error sDone cidA [1] evalPass rfl rfl

/-- Inversion of a successful submission: the session was active, the index
in range, and the updated session replaces the current slot with a slot of
the same challenge id, either advancing the index past it, or leaving the
index in place on a slot that is unused with attempts remaining. -/
theorem verify_ok_cases {s s' : BSession} {cid : String} {m : List ℕ}
    {ev : List ℕ → String → HVResult} {r : BReply}
    (h : verify_challenge s cid m ev = .ok (r, s')) :
    ∃ hidx : s.current_index < s.challenges.length, ∃ c' : BSlot,
      c'.challenge_id = (s.challenges.get ⟨s.current_index, hidx⟩).challenge_id ∧
      s'.challenges = s.challenges.set s.current_index c' ∧
      (s'.current_index = s.current_index + 1 ∨
        (s'.current_index = s.current_index ∧
          c'.attempts < c'.max_attempts ∧ c'.used = false)) := by
  unfold verify_challenge at h
  by_cases h1 : s.status ≠ "active"
  · rw [if_pos h1] at h
    simp at h
  rw [if_neg h1] at h
  by_cases h2 : s.current_index < s.challenges.length
  case neg =>
    rw [dif_neg h2] at h
    simp at h
  rw [dif_pos h2] at h
  refine ⟨h2, ?_⟩
  by_cases h3 : (s.challenges.get ⟨s.current_index, h2⟩).challenge_id ≠ cid
  · rw [if_pos h3] at h
    simp at h
  rw [if_neg h3] at h
  by_cases h4 : (s.challenges.get ⟨s.current_index, h2⟩).used
  · rw [if_pos h4] at h
    simp at h
  rw [if_neg h4] at h
  by_cases h5 : (s.challenges.get ⟨s.current_index, h2⟩).max_attempts ≤
      (s.challenges.get ⟨s.current_index, h2⟩).attempts
  · rw [if_pos h5] at h
    simp at h
  rw [if_neg h5] at h
  by_cases h6 : (ev m (s.challenges.get ⟨s.current_index, h2⟩).type).challenge_passed
  · rw [if_pos h6] at h
    simp only [Except.ok.injEq, Prod.mk.injEq] at h
    obtain ⟨hr, hs⟩ := h
    subst hs
    exact ⟨{ s.challenges.get ⟨s.current_index, h2⟩ with
        attempts := (s.challenges.get ⟨s.current_index, h2⟩).attempts + 1
        used := true
        passed := true }, rfl, rfl, Or.inl rfl⟩
  · rw [if_neg h6] at h
    simp only [Except.ok.injEq, Prod.mk.injEq] at h
    obtain ⟨hr, hs⟩ := h
    subst hs
    refine ⟨{ s.challenges.get ⟨s.current_index, h2⟩ with
        attempts := (s.challenges.get ⟨s.current_index, h2⟩).attempts + 1
        used := false }, rfl, rfl, ?_⟩
    by_cases h7 : (s.challenges.get ⟨s.current_index, h2⟩).max_attempts ≤
        (s.challenges.get ⟨s.current_index, h2⟩).attempts + 1
    · exact Or.inl (if_pos h7)
    · exact Or.inr ⟨if_neg h7, not_le.mp h7, rfl⟩

/-- Replacing a slot by one with the same challenge id leaves the id list
unchanged. -/
theorem map_challenge_id_set (l : List BSlot) (i : ℕ) (hi : i < l.length) (a : BSlot)
    (ha : a.challenge_id = (l.get ⟨i, hi⟩).challenge_id) :
    (l.set i a).map (fun c => c.challenge_id) = l.map (fun c => c.challenge_id) := by
  apply List.ext_getElem
  · simp
  · intro j h1 h2
    simp only [List.getElem_map]
    by_cases hij : i = j
    · subst hij
      rw [List.getElem_set_self (by simpa using h1)]
      rw [ha]
      rfl
    · rw [List.getElem_set_ne hij]

/-- The challenge fetch changes at most the status field. -/
theorem get_current_challenge_state (s : BSession) (now : ℚ) :
    (get_current_challenge s now).2.challenges = s.challenges ∧
    (get_current_challenge s now).2.current_index = s.current_index := by
  unfold get_current_challenge
  split_ifs <;> exact ⟨rfl, rfl⟩

/-- Every backend transition preserves the list of challenge ids. -/
theorem slotIds_step {s s' : BSession} (hstep : BStep s s') : slotIds s' = slotIds s := by
  cases hstep with
  | verifyStep cid m ev r h =>
    obtain ⟨hidx, c', hcid, hch, _⟩ := verify_ok_cases h
    unfold slotIds
    rw [hch]
    exact map_challenge_id_set _ _ hidx _ hcid
  | challengeStep now =>
    unfold slotIds
    rw [(get_current_challenge_state _ now).1]
  | finalizeStep trusted => rfl

/-- Every backend transition preserves the slot invariant: slots at or
after the current index keep attempts below the budget and stay unused. -/
theorem slotInv_step {s s' : BSession} (hstep : BStep s s') (hinv : SlotInv s) :
    SlotInv s' := by
  cases hstep with
  | verifyStep cid m ev r h =>
    obtain ⟨hidx, c', hcid, hch, hor⟩ := verify_ok_cases h
    obtain ⟨d1, st1, e1, ch1, ci1⟩ := s'
    simp only at hch hor
    subst hch
    intro j hj
    simp only at hj
    have hjs : (j : ℕ) < s.challenges.length := by simpa using j.isLt
    simp only [List.get_eq_getElem, List.getElem_set]
    have hmem := hinv ⟨(j : ℕ), hjs⟩
    simp only [List.get_eq_getElem] at hmem
    rcases hor with hadv | ⟨hstay, hlt, hused⟩
    · subst hadv
      have hne : ¬ s.current_index = (j : ℕ) := by omega
      rw [if_neg hne]
      exact hmem (show s.current_index ≤ (j : ℕ) by omega)
    · subst hstay
      by_cases hij : s.current_index = (j : ℕ)
      · rw [if_pos hij]
        exact ⟨hlt, hused⟩
      · rw [if_neg hij]
        exact hmem hj
  | challengeStep now =>
    unfold get_current_challenge
    split_ifs <;> exact hinv
  | finalizeStep trusted => exact hinv

/-- The slot invariant holds in every session reachable from one that
satisfies it. -/
theorem reachableB_slotInv {s0 s : BSession} (h : ReachableB s0 s) (h0 : SlotInv s0) :
    SlotInv s := by
  induction h with
  | refl => exact h0
  | step hr hs ih => exact slotInv_step hs ih

/-- The challenge id list is constant along every reachable run. -/
theorem reachableB_slotIds {s0 s : BSession} (h : ReachableB s0 s) :
    slotIds s = slotIds s0 := by
  induction h with
  | refl => rfl
  | step hr hs ih => rw [slotIds_step hs, ih]

/-- C9 (amended): in any session reachable from a well-formed start (fresh
slots, distinct challenge ids), resubmitting a challenge_id whose slot has
already spent attempts equal to max_attempts is always rejected without the
Signal Analyzer ever being invoked (the outcome is the same for every
analyzer), and the rejection is never the consumed-slot rejection
(Challenge already used) nor the retry-limit rejection: because exhausting
a slot advances current_index past it, the code answers with the
order-violation rejection, the invalid-session rejection, or the unhandled
index error instead of AlreadyConsumed. -/
theorem exhausted_resubmission_rejected_no_analyzer (s0 s : BSession) (cid : String)
    (m : List ℕ) (ev ev' : List ℕ → String → HVResult) (j : Fin s.challenges.length)
    (hreach : ReachableB s0 s) (hinv0 : SlotInv s0) (hids : (slotIds s0).Nodup)
    (hcid : (s.challenges.get j).challenge_id = cid)
    (hmax : (s.challenges.get j).max_attempts ≤ (s.challenges.get j).attempts) :
    verify_challenge s cid m ev = verify_challenge s cid m ev' ∧
    (∀ r s', verify_challenge s cid m ev ≠ .ok (r, s')) ∧
    verify_challenge s cid m ev ≠ .error .alreadyUsed ∧
    verify_challenge s cid m ev ≠ .error .retryLimit := by
  have hinv : SlotInv s := reachableB_slotInv hreach hinv0
  have hidsS : (slotIds s).Nodup := by rw [reachableB_slotIds hreach]; exact hids
  have hj : (j : ℕ) < s.current_index := by
    by_contra hle
    push_neg at hle
    exact absurd hmax (not_le.mpr (hinv j hle).1)
  by_cases hact : s.status = "active"
  · by_cases hlen : s.current_index < s.challenges.length
    · have hne : ¬ (s.challenges.get ⟨s.current_index, hlen⟩).challenge_id = cid := by
        intro he
        have hmaplen : (slotIds s).length = s.challenges.length := by
          simp [slotIds]
        have hg1 : (slotIds s).get ⟨s.current_index, by rw [hmaplen]; exact hlen⟩ =
            (s.challenges.get ⟨s.current_index, hlen⟩).challenge_id := by
          simp [slotIds]
        have hg2 : (slotIds s).get ⟨(j : ℕ), by rw [hmaplen]; exact j.isLt⟩ =
            (s.challenges.get j).challenge_id := by
          simp [slotIds]
        have heq : (⟨s.current_index, by rw [hmaplen]; exact hlen⟩ :
            Fin (slotIds s).length) = ⟨(j : ℕ), by rw [hmaplen]; exact j.isLt⟩ :=
          (List.Nodup.get_inj_iff hidsS).mp (by rw [hg1, hg2, he, hcid])
        have : s.current_index = (j : ℕ) := congrArg Fin.val heq
        omega
      have he1 := @verify_wrong_id s cid m ev hact hlen hne
      have he2 := @verify_wrong_id s cid m ev' hact hlen hne
      rw [he1, he2]
      exact ⟨rfl, fun r s' hx => Except.noConfusion hx, by decide, by decide⟩
    · have he1 := @verify_oob s cid m ev hact (not_lt.mp hlen)
      have he2 := @verify_oob s cid m ev' hact (not_lt.mp hlen)
      rw [he1, he2]
      exact ⟨rfl, fun r s' hx => Except.noConfusion hx, by decide, by decide⟩
  · have he1 := @verify_not_active s cid m ev hact
    have he2 := @verify_not_active s cid m ev' hact
    rw [he1, he2]
    exact ⟨rfl, fun r s' hx => Except.noConfusion hx, by decide, by decide⟩

/-- Witness for C9 at the reachable state whose first slot is exhausted. -/
theorem exhausted_resubmission_rejected_no_analyzer_witness :
    verify_challenge sExhausted cidA [1] evalPass =
      verify_challenge sExhausted cidA [1] evalFail ∧
    verify_challenge sExhausted cidA [1] evalPass ≠ .error .alreadyUsed ∧
    verify_challenge sExhausted cidA [1] evalPass ≠ .error .retryLimit := by
  have h := exhausted_resubmission_rejected_no_analyzer sExhausted sExhausted cidA [1]
    evalPass evalFail ⟨0, by decide⟩ ReachableB.refl
    (by unfold SlotInv; decide) (by decide) (by decide) (by decide)
  exact ⟨h.1, h.2.2.1, h.2.2.2⟩

/-- C9 counterexample: the resubmission of the exhausted challenge id a in
sExhausted is answered with the order-violation rejection (403 Challenge
order violation), not with the consumed rejection the claim names. -/
theorem exhausted_resubmission_order_violation :
    verify_challenge sExhausted cidA [1] evalPass = .error .orderViolation ∧
    (BError.orderViolation : BError) ≠ BError.alreadyUsed := by
  exact ⟨by decide, by decide⟩
